import Mathlib

/-!
Verification development for the intent-recognition core of the
`mbti-desktop-pet` repository (`src/mbti_pet/intent/__init__.py`).

The Python module is shallowly embedded below:
* a small backtracking regular-expression engine mirroring the behaviour of
  the Python functions `re.search` / `re.findall` on the fixed pattern catalog,
* the pattern catalog `INTENT_PATTERNS` and entity patterns,
* the scoring / threshold / fallback logic of
  `IntentRecognizer.recognize_intent`,
* `ScreenActivityAnalyzer` (window-title analysis, bounded activity history,
  streak detection), and
* `ContextAwareIntentSystem.analyze`, the single entry point.

Floats are modelled as rationals; Python dicts keyed by strings are modelled
as association lists in insertion order.
-/

set_option maxRecDepth 4096

namespace MbtiPet

/-- The double-quote character, written by code point. -/
def dq : Char := Char.ofNat 34

/-- The single-quote character, written by code point. -/
def sq : Char := Char.ofNat 39

/-- One-character string holding a single quote. -/
def sqS : String := String.singleton sq

/-- Word characters for the `\b` word-boundary test: ASCII letters, digits,
underscore, and CJK unified ideographs (the Python `re` module treats Chinese
characters as word characters). -/
def wordChar (c : Char) : Bool :=
  c.isAlpha || c.isDigit || c = '_' || (0x4E00 ≤ c.toNat && c.toNat ≤ 0x9FFF)

/-- Whitespace characters, as matched by `\s`: space, tab, newline, carriage
return, form feed, vertical tab. -/
def isSpaceChar (c : Char) : Bool :=
  c = ' ' || c.toNat = 9 || c.toNat = 10 || c.toNat = 13 || c.toNat = 12 || c.toNat = 11

/-- Regular-expression abstract syntax covering the constructs used by the
pattern catalog: literals, character classes, concatenation, (left-biased)
alternation, greedy Kleene star, the word boundary `\b`, and the
start-of-string anchor `^`. -/
inductive RE where
  | eps : RE
  | chr : Char → RE
  | cls : (Char → Bool) → RE
  | seq : RE → RE → RE
  | alt : RE → RE → RE
  | star : RE → RE
  | bound : RE
  | bos : RE

/-- Character at index `i`, if in range. -/
def charAt (s : List Char) (i : Nat) : Option Char :=
  (s.drop i).head?

/-- Does a word character sit immediately before position `i`? -/
def wordBefore (s : List Char) (i : Nat) : Bool :=
  if i = 0 then false
  else
    match charAt s (i - 1) with
    | some c => wordChar c
    | none => false

/-- Does a word character sit at position `i`? -/
def wordAfter (s : List Char) (i : Nat) : Bool :=
  match charAt s i with
  | some c => wordChar c
  | none => false

/-- All end positions of a match of `re` starting at position `i` of `s`, in
backtracking priority order (the head is the match the Python engine commits
to: alternation is left-biased and star is greedy).  `fuel` bounds the
recursion; `search` below always supplies enough. -/
def matchEnds : Nat → RE → List Char → Nat → List Nat
  | 0, _, _, _ => []
  | Nat.succ fuel, re, s, i =>
    match re with
    | RE.eps => [i]
    | RE.chr c =>
        match charAt s i with
        | some d => if d = c then [i + 1] else []
        | none => []
    | RE.cls p =>
        match charAt s i with
        | some d => if p d then [i + 1] else []
        | none => []
    | RE.seq a b =>
        (matchEnds fuel a s i).flatMap (fun j => matchEnds fuel b s j)
    | RE.alt a b => matchEnds fuel a s i ++ matchEnds fuel b s i
    | RE.star a =>
        (((matchEnds fuel a s i).filter (fun j => i < j)).flatMap
          (fun j => matchEnds fuel (RE.star a) s j)) ++ [i]
    | RE.bound => if wordBefore s i != wordAfter s i then [i] else []
    | RE.bos => if i = 0 then [i] else []

/-- Fuel that is always sufficient for `matchEnds` on the patterns of the catalog:
call depth is bounded by the syntactic depth of the pattern plus one unit per
star iteration, and star iterations strictly advance in the input. -/
def fuelFor (s : List Char) : Nat := s.length + 600

/-- Try match starts `i, i+1, ...` (at most `k` attempts), returning the
first `(start, end)` span found, like the Python `re.search`. -/
def searchAux (re : RE) (s : List Char) : Nat → Nat → Option (Nat × Nat)
  | _, 0 => none
  | i, Nat.succ k =>
    match matchEnds (fuelFor s) re s i with
    | j :: _ => some (i, j)
    | [] => searchAux re s (i + 1) k

/-- Python `re.search`: the leftmost match span of `re` in `s`, if any. -/
def search (re : RE) (s : List Char) : Option (Nat × Nat) :=
  searchAux re s 0 (s.length + 1)

/-- Substring of `s` from `i` (inclusive) to `j` (exclusive). -/
def sliceOf (s : List Char) (i j : Nat) : List Char :=
  (s.drop i).take (j - i)

/-- Python `re.findall` loop: collect non-overlapping matches left to right,
resuming at the end of each match (bumping by one on an empty match). -/
def findallAux (re : RE) (s : List Char) : Nat → Nat → List (List Char)
  | _, 0 => []
  | pos, Nat.succ k =>
    match searchAux re s pos (s.length + 1 - pos) with
    | some (i, j) =>
        sliceOf s i j :: findallAux re s (if i < j then j else j + 1) k
    | none => []

/-- Python `re.findall`: all non-overlapping matches of `re` in `s`. -/
def findall (re : RE) (s : List Char) : List (List Char) :=
  findallAux re s 0 (s.length + 1)

/-! Smart constructors used to transcribe the Python pattern literals. -/

/-- A literal string pattern. -/
def lit (w : String) : RE :=
  w.data.foldr (fun c r => RE.seq (RE.chr c) r) RE.eps

/-- Concatenation of a pattern list. -/
def cat (l : List RE) : RE :=
  l.foldr RE.seq RE.eps

/-- Left-biased alternation of a pattern list (Python tries branches left to
right). -/
def alts : List RE → RE
  | [] => RE.cls (fun _ => false)
  | [r] => r
  | r :: rs => RE.alt r (alts rs)

/-- Alternation `(w₁|w₂|...)` over string literals. -/
def anyLit (ws : List String) : RE :=
  alts (ws.map lit)

/-- Pattern `\b(w₁|w₂|...)\b`. -/
def wlit (ws : List String) : RE :=
  cat [RE.bound, anyLit ws, RE.bound]

/-- Pattern `^(w₁|w₂|...)`. -/
def bosLit (ws : List String) : RE :=
  cat [RE.bos, anyLit ws]

/-- Pattern `.` : any character except newline. -/
def dotc : RE := RE.cls (fun c => !(c.toNat = 10))

/-- Pattern `.*` (greedy). -/
def dotStar : RE := RE.star dotc

/-- Pattern `r?` (greedy). -/
def opt (r : RE) : RE := RE.alt r RE.eps

/-- Pattern `r+` (greedy). -/
def plus (r : RE) : RE := RE.seq r (RE.star r)

/-- At most `n` copies of `r`, greedily preferring more. -/
def upTo : Nat → RE → RE
  | 0, _ => RE.eps
  | Nat.succ n, r => RE.alt (RE.seq r (upTo n r)) RE.eps

/-- Pattern `.\x7b1,20\x7d` (greedy). -/
def dotRange1to20 : RE := RE.seq dotc (upTo 19 dotc)

/-! The data model of the intent module. -/

/-- The closed enumeration of intent categories (`IntentType`). -/
inductive IntentType where
  | HELP_REQUEST
  | TASK_EXECUTION
  | INFORMATION_QUERY
  | AUTOMATION_REQUEST
  | CASUAL_CHAT
  | SYSTEM_COMMAND
  | FILE_OPERATION
  | WEB_SEARCH
  | CODE_ASSISTANCE
  | WRITING_ASSISTANCE
  | SEARCH
  | AUTOMATION
  | MEMORY
  | SCREENSHOT
  | OPEN_URL
  | OPEN_FILE
  | UNKNOWN
deriving DecidableEq, Repr

/-- One `(pattern, weight)` rule of the catalog. -/
structure Rule where
  pat : RE
  weight : ℚ

/-- Shorthand rule constructor. -/
def R (p : RE) (w : ℚ) : Rule := ⟨p, w⟩

/-- Values stored in the string-keyed maps the Python code passes around:
strings (context fields), lists of strings (entity matches), and the one
empty nested dict in the screen context. -/
inductive PyVal where
  | vstr : String → PyVal
  | vlist : List String → PyVal
  | vdict : PyVal
deriving DecidableEq, Repr

/-- A Python dict keyed by strings, in insertion order. -/
abbrev Entities := List (String × PyVal)

/-- The value record returned per classification call. -/
structure Intent where
  intent_type : IntentType
  confidence : ℚ
  entities : Entities
  raw_input : String
  suggested_action : Option String
deriving DecidableEq, Repr

/-- The table `IntentRecognizer.INTENT_PATTERNS`, transcribed rule by rule in source
order (the dict insertion order, which the tie-break depends on). -/
def INTENT_PATTERNS : List (IntentType × List Rule) :=
  [ (IntentType.HELP_REQUEST,
     [ R (wlit ["help", "assist", "support", "guide"]) (5/10),
       R (wlit ["show me", "how to", "can you help", "could you help"]) (6/10),
       R (wlit ["need help", "stuck", "need assistance", "need support"]) (6/10),
       R (anyLit ["帮助", "协助", "支持", "指导"]) (5/10),
       R (anyLit ["需要帮助", "困难", "有困难"]) (6/10),
       R (anyLit ["teach me", "guide me"]) (5/10),
       R (anyLit ["帮我", "教我"]) (5/10) ]),
    (IntentType.TASK_EXECUTION,
     [ R (cat [wlit ["execute", "perform", "carry out"], dotStar,
               wlit ["task", "action", "job"]]) (7/10),
       R (wlit ["do", "run", "start", "launch"]) (4/10),
       R (cat [RE.bound, anyLit ["open", "close"], dotStar,
               wlit ["browser", "application", "app", "program", "window"]]) (7/10),
       R (anyLit ["完成", "执行", "运行", "启动", "打开"]) (5/10),
       R (cat [RE.bos, opt (anyLit ["please ", "帮我 "]),
               anyLit ["do", "execute", "run"]]) (6/10),
       R (bosLit ["完成", "执行"]) (6/10) ]),
    (IntentType.INFORMATION_QUERY,
     [ R (cat [RE.bos, anyLit ["what", "when", "where", "who", "why", "how", "which"],
               RE.bound]) (6/10),
       R (wlit ["tell me", "explain", "describe", "define"]) (6/10),
       R (bosLit ["什么", "为什么", "如何", "哪里", "为何", "怎么"]) (6/10),
       R (anyLit ["告诉我", "解释", "说明", "定义"]) (6/10),
       R (anyLit ["查询", "询问", "了解", "知道"]) (5/10) ]),
    (IntentType.AUTOMATION_REQUEST,
     [ R (wlit ["automate", "automatic", "automatically"]) (7/10),
       R (wlit ["schedule", "repeat", "batch", "recurring"]) (6/10),
       R (cat [RE.bound, anyLit ["set up", "setup"], dotStar,
               wlit ["automation", "automatic"]]) (8/10),
       R (anyLit ["自动化", "自动", "定时", "批量"]) (7/10),
       R (anyLit ["重复", "循环", "定期"]) (5/10),
       R (anyLit ["every", "每", "每天", "每周", "daily", "weekly"]) (6/10) ]),
    (IntentType.FILE_OPERATION,
     [ R (cat [wlit ["file", "folder", "directory"], dotStar,
               wlit ["save", "load", "delete", "move", "copy", "rename"]]) (7/10),
       R (cat [wlit ["create", "make", "new"], dotStar, wlit ["file", "folder"]]) (7/10),
       R (anyLit ["文件", "文件夹", "目录"]) (5/10),
       R (anyLit ["保存", "删除", "移动", "复制", "重命名", "创建"]) (5/10) ]),
    (IntentType.WEB_SEARCH,
     [ R (wlit ["google", "bing", "search engine"]) (7/10),
       R (wlit ["find online", "look up online", "search the web"]) (7/10),
       R (wlit ["look up", "lookup"]) (6/10),
       R (wlit ["browse", "surf"]) (4/10),
       R (anyLit ["在线搜索", "网上查找", "上网搜"]) (7/10) ]),
    (IntentType.CODE_ASSISTANCE,
     [ R (cat [wlit ["code", "program", "script"], dotStar,
               wlit ["debug", "fix", "error", "bug"]]) (8/10),
       R (cat [wlit ["debug", "fix"], dotStar,
               wlit ["code", "program", "script", "function", "error", "bug"]]) (8/10),
       R (cat [RE.bos, anyLit ["debug", "fix"], RE.bound]) (6/10),
       R (wlit ["function", "class", "variable", "method", "algorithm"]) (6/10),
       R (cat [wlit ["compile", "syntax", "runtime"], dotStar,
               wlit ["error", "issue"]]) (7/10),
       R (anyLit ["代码", "程序", "脚本"]) (5/10),
       R (anyLit ["调试", "修复", "错误", "函数", "类", "变量"]) (6/10) ]),
    (IntentType.WRITING_ASSISTANCE,
     [ R (cat [wlit ["write", "draft", "compose"], dotStar,
               wlit ["document", "article", "essay", "email"]]) (7/10),
       R (wlit ["edit", "proofread", "review", "revise"]) (6/10),
       R (wlit ["grammar", "spelling", "punctuation"]) (6/10),
       R (anyLit ["写作", "撰写", "编写"]) (6/10),
       R (anyLit ["编辑", "修改", "校对", "语法"]) (6/10) ]),
    (IntentType.SYSTEM_COMMAND,
     [ R (cat [wlit ["shutdown", "restart", "reboot"], dotStar,
               wlit ["computer", "system", "pc"]]) (8/10),
       R (cat [wlit ["close", "quit", "exit", "kill"], dotStar,
               wlit ["application", "app", "program"]]) (7/10),
       R (cat [wlit ["minimize", "maximize", "restore"], dotStar,
               wlit ["window"]]) (7/10),
       R (cat [anyLit ["关闭", "退出", "结束"], dotStar,
               anyLit ["程序", "应用", "窗口"]]) (7/10),
       R (anyLit ["重启", "关机", "最小化", "最大化"]) (6/10) ]),
    (IntentType.SEARCH,
     [ R (cat [RE.bos, anyLit ["search", "find", "lookup", "query"], RE.bound]) (7/10),
       R (wlit ["search for", "find me", "lookup"]) (7/10),
       R (bosLit ["搜索", "查询", "搜", "找"]) (8/10),
       R (cat [anyLit ["搜索", "查找", "检索"], dotStar,
               anyLit ["教程", "资料", "信息", "内容"]]) (8/10),
       R (cat [lit "search", dotRange1to20,
               anyLit ["tutorial", "guide", "info", "how to"]]) (8/10),
       R (cat [anyLit ["搜索", "搜", "查找"], dotRange1to20,
               anyLit ["教程", "指南", "方法"]]) (8/10) ]),
    (IntentType.AUTOMATION,
     [ R (bosLit ["automate", "自动化"]) (9/10),
       R (anyLit ["帮我自动", "自动执行", "自动完成"]) (9/10),
       R (wlit ["automate this", "make it automatic"]) (8/10),
       R (alts [cat [lit "自动化", dotStar, lit "任务"],
                cat [lit "自动", dotStar, lit "处理"]]) (8/10),
       R (anyLit ["批处理", "批量处理", "自动运行"]) (7/10) ]),
    (IntentType.MEMORY,
     [ R (bosLit ["remember", "记住", "记录"]) (9/10),
       R (wlit ["save to memory", "store this"]) (8/10),
       R (anyLit ["记下来", "记一下"]) (8/10),
       R (cat [anyLit ["记住", "记录", "保存", "储存"], dotStar,
               anyLit ["这个", "这件事", "此事", "信息"]]) (9/10),
       R (wlit ["memorize", "keep in mind"]) (8/10),
       R (anyLit ["别忘了", "不要忘记"]) (8/10),
       R (wlit ["recall", "retrieve"]) (7/10),
       R (anyLit ["想起", "回忆"]) (7/10),
       R (wlit ["do you remember"]) (8/10),
       R (anyLit ["你记得", "还记得"]) (8/10) ]),
    (IntentType.SCREENSHOT,
     [ R (bosLit ["screenshot", "capture", "截图", "截屏"]) (19/20),
       R (wlit ["take a screenshot", "capture screen"]) (9/10),
       R (anyLit ["截图", "截屏", "抓图", "屏幕截图"]) (19/20),
       R (wlit ["capture this", "save screen"]) (8/10),
       R (anyLit ["保存屏幕"]) (8/10),
       R (wlit ["screen capture", "print screen"]) (8/10) ]),
    (IntentType.OPEN_URL,
     [ R (cat [lit "http", opt (RE.chr 's'), lit "://",
               plus (RE.cls (fun c => !(isSpaceChar c)))]) (19/20),
       R (cat [wlit ["open", "go to", "visit", "navigate to"], dotStar,
               anyLit ["http", "www.", ".com", ".org", ".net"]]) (9/10),
       R (cat [anyLit ["打开", "访问", "进入", "浏览"], dotStar,
               anyLit ["网址", "网站", "链接"]]) (8/10),
       R (cat [RE.bos, anyLit ["打开", "open"], RE.star (RE.cls isSpaceChar),
               anyLit ["www.", "http"]]) (9/10),
       R (cat [anyLit [".com", ".org", ".net", ".cn", ".io"], RE.bound]) (6/10) ]),
    (IntentType.OPEN_FILE,
     [ R (cat [wlit ["open", "edit", "view"], dotStar, wlit ["file", "document"]]) (8/10),
       R (cat [anyLit ["打开", "编辑", "查看"], dotStar, anyLit ["文件", "文档"]]) (8/10),
       R (cat [wlit ["open", "edit", "view"], dotStar, RE.chr '.',
               anyLit ["py", "txt", "doc", "pdf", "jpg", "png", "xlsx", "json",
                       "xml", "cpp", "java", "js", "html", "css"]]) (9/10),
       R (cat [anyLit ["打开"], dotStar, RE.chr '.',
               anyLit ["py", "txt", "doc", "pdf", "jpg", "png", "xlsx", "json",
                       "xml", "cpp", "java", "js", "html", "css"]]) (9/10),
       R (cat [RE.chr dq, RE.star (RE.cls (fun c => !(c = dq))), RE.chr '.',
               anyLit ["py", "txt", "doc", "pdf", "jpg", "png", "xlsx", "json",
                       "xml", "cpp", "java", "js", "html", "css"], RE.chr dq]) (9/10),
       R (cat [RE.chr sq, RE.star (RE.cls (fun c => !(c = sq))), RE.chr '.',
               anyLit ["py", "txt", "doc", "pdf", "jpg", "png", "xlsx", "json",
                       "xml", "cpp", "java", "js", "html", "css"], RE.chr sq]) (9/10) ]),
    (IntentType.CASUAL_CHAT,
     [ R (bosLit ["hi", "hello", "hey", "哈喽"]) (8/10),
       R (bosLit ["你好", "嗨"]) (8/10),
       R (bosLit ["how are you", "how" ++ sqS ++ "s it going", "what" ++ sqS ++ "s up"]) (8/10),
       R (bosLit ["你好吗", "怎么样"]) (8/10),
       R (cat [wlit ["nice", "good", "great", "cool", "awesome"], dotStar,
               wlit ["weather", "day"]]) (7/10),
       R (cat [anyLit ["不错", "很好", "棒", "好"], dotStar, lit "天气"]) (7/10),
       R (bosLit ["thanks", "thank you"]) (7/10),
       R (bosLit ["谢谢", "感谢"]) (7/10),
       R (bosLit ["bye", "goodbye", "see you"]) (7/10),
       R (bosLit ["再见", "拜拜"]) (7/10),
       R (anyLit ["好的", "ok", "okay", "fine", "sure", "alright", "行", "可以"]) (4/10) ]) ]

/-! `IntentRecognizer.ENTITY_PATTERNS`. -/

/-- The quoted-filename pattern (a quote, a body, a dot, an alphanumeric
extension, a closing quote; the body is its single capture group). -/
def filePathRE : RE :=
  cat [RE.cls (fun c => c = dq || c = sq),
       plus (RE.cls (fun c => !(c = dq || c = sq))),
       RE.chr '.',
       plus (RE.cls (fun c => c.isAlpha || c.isDigit)),
       RE.cls (fun c => c = dq || c = sq)]

/-- Pattern `https?://[^\s]+`. -/
def urlRE : RE :=
  cat [lit "http", opt (RE.chr 's'), lit "://", plus (RE.cls (fun c => !(isSpaceChar c)))]

/-- Email pattern of the source (whose class `[A-Z|a-z]` includes a literal
`[A-Z|a-z]` includes a literal bar). -/
def emailRE : RE :=
  cat [RE.bound,
       plus (RE.cls (fun c => c.isAlpha || c.isDigit || c = '.' || c = '_' ||
                              c = '%' || c = '+' || c = '-')),
       RE.chr '@',
       plus (RE.cls (fun c => c.isAlpha || c.isDigit || c = '.' || c = '-')),
       RE.chr '.',
       RE.cls (fun c => c.isAlpha || c = '|'),
       plus (RE.cls (fun c => c.isAlpha || c = '|')),
       RE.bound]

/-- Pattern `\b\d+\b`. -/
def numberRE : RE :=
  cat [RE.bound, plus (RE.cls Char.isDigit), RE.bound]

/-- Clock-time pattern (one or two digits, a colon, two digits, inside word
boundaries). -/
def timeRE : RE :=
  cat [RE.bound, RE.cls Char.isDigit, opt (RE.cls Char.isDigit), RE.chr ':',
       RE.cls Char.isDigit, RE.cls Char.isDigit, RE.bound]

/-- The entity patterns in dict order.  The boolean marks the one pattern
(`file_path`) whose single capture group makes `re.findall` return group 1:
the full match minus its surrounding quote characters. -/
def entitySpecs : List (String × RE × Bool) :=
  [ ("file_path", filePathRE, true),
    ("url", urlRE, false),
    ("email", emailRE, false),
    ("number", numberRE, false),
    ("time", timeRE, false) ]

/-! Scoring logic of `IntentRecognizer.recognize_intent`. -/

/-- The lowercased input `user_input.lower()` as a character list (ASCII lowering; the Chinese
literals in the catalog are unaffected by `lower`). -/
def lowerData (s : String) : List Char :=
  s.data.map Char.toLower

/-- One iteration of the per-category rule loop: on a match add the
weight, count the match, and add `0.05` when the matched span is longer
than 10 characters. -/
def scoreStep (s : List Char) (acc : ℚ × Nat) (r : Rule) : ℚ × Nat :=
  match search r.pat s with
  | some (i, j) =>
      (acc.1 + r.weight + (if 10 < j - i then (1/20 : ℚ) else 0), acc.2 + 1)
  | none => acc

/-- The rule loop over the rule list of one category, starting from
`score = 0.0, match_count = 0`. -/
def scoreLoop (s : List Char) (rules : List Rule) : ℚ × Nat :=
  List.foldl (scoreStep s) (0, 0) rules

/-- The final `(score, match_count)` of a category: the loop total, plus the
multi-match bonus `min((match_count − 1) · 0.1, 0.3)` when more than one
rule matched, capped at `1.0`. -/
def categoryScore (s : List Char) (rules : List Rule) : ℚ × Nat :=
  let p := scoreLoop s rules
  let sc := if 1 < p.2 then p.1 + min (((p.2 : ℚ) - 1) * (1/10)) (3/10) else p.1
  (min sc 1, p.2)

/-- The score table (`intent_scores` with `intent_match_counts`), in dict insertion order. -/
def intentScores (s : List Char) : List (IntentType × ℚ × Nat) :=
  INTENT_PATTERNS.map (fun p => (p.1, categoryScore s p.2))

/-- Strict lexicographic comparison on `(score, match_count)` keys. -/
def keyLT (a b : ℚ × Nat) : Bool :=
  if a.1 < b.1 then true
  else if a.1 = b.1 then decide (a.2 < b.2)
  else false

/-- Head of the Python stable descending sort on `(score, match_count)`: scan
left to right, replacing the current best only on a strictly larger key, so
the earliest maximal entry wins ties. -/
def pickTop : List (IntentType × ℚ × Nat) → (IntentType × ℚ × Nat) → (IntentType × ℚ × Nat)
  | [], best => best
  | x :: xs, best => pickTop xs (if keyLT best.2 x.2 then x else best)

/-- The head `sorted_intents[0]` of the ranking, when the score list is non-empty. -/
def topRanked (s : List Char) : Option (IntentType × ℚ × Nat) :=
  match intentScores s with
  | [] => none
  | x :: xs => some (pickTop xs x)

/-- Per-category acceptance threshold: `0.3` for casual chat, `0.4`
otherwise. -/
def threshold (it : IntentType) : ℚ :=
  if it = IntentType.CASUAL_CHAT then 3/10 else 4/10

/-- Group-1 of a `filePathRE` match: the full match minus the single leading
and trailing quote characters. -/
def innerOfQuoted (m : List Char) : List Char :=
  (m.drop 1).dropLast

/-- Entity extraction (`IntentRecognizer._extract_entities`): run each entity
`findall` over the raw (non-lowered) text, keeping only kinds with at least
one match, in pattern-dict order. -/
def extract_entities (text : String) : Entities :=
  entitySpecs.foldl
    (fun acc spec =>
      match spec with
      | (name, re, useGroup) =>
        let ms := findall re text.data
        let ms := if useGroup then ms.map innerOfQuoted else ms
        if ms.isEmpty then acc else acc ++ [(name, PyVal.vlist (ms.map String.mk))])
    []

/-- Python `dict` assignment: overwrite in place if the key exists, append
otherwise. -/
def dictSet (d : Entities) (k : String) (v : PyVal) : Entities :=
  if d.any (fun p => p.1 = k) then
    d.map (fun p => if p.1 = k then (k, v) else p)
  else d ++ [(k, v)]

/-- Python `dict.update`: fold the entries of the right dict into the left. -/
def dictUpdate (d ctx : Entities) : Entities :=
  ctx.foldl (fun acc p => dictSet acc p.1 p.2) d

/-- The static lookup table of `IntentRecognizer._generate_suggested_action`,
with the `.get` default of the dict for unmapped categories. -/
def suggestedAction (it : IntentType) : String :=
  match it with
  | IntentType.HELP_REQUEST =>
      "I can help you with that. What specifically do you need assistance with?"
  | IntentType.TASK_EXECUTION =>
      "I" ++ sqS ++ "ll help you execute that task. Let me prepare the necessary steps."
  | IntentType.INFORMATION_QUERY => "Let me search for that information for you."
  | IntentType.AUTOMATION_REQUEST => "I can set up automation for that. Let me configure it."
  | IntentType.FILE_OPERATION => "I" ++ sqS ++ "ll help you with that file operation."
  | IntentType.WEB_SEARCH => "I" ++ sqS ++ "ll search for that online."
  | IntentType.CODE_ASSISTANCE => "I can help with your code. Let me analyze it."
  | IntentType.WRITING_ASSISTANCE => "I" ++ sqS ++ "ll help you with your writing."
  | IntentType.SYSTEM_COMMAND => "I" ++ sqS ++ "ll execute that system command."
  | IntentType.CASUAL_CHAT =>
      "I" ++ sqS ++ "m here to chat! What" ++ sqS ++ "s on your mind?"
  | IntentType.SEARCH => "I" ++ sqS ++ "ll search for that information right away."
  | IntentType.AUTOMATION => "I can automate that task for you. Let me set it up."
  | IntentType.MEMORY => "I" ++ sqS ++ "ll remember that for you."
  | IntentType.SCREENSHOT => "Taking a screenshot now..."
  | IntentType.OPEN_URL => "Opening the URL for you..."
  | IntentType.OPEN_FILE => "Opening the file..."
  | IntentType.UNKNOWN => "How can I help you?"

/-- The classifier `IntentRecognizer.recognize_intent`: score every category, take the top
of the `(score, match_count)`-descending ranking, apply the per-category
threshold, fall back to casual chat with fixed confidence `0.5` otherwise,
then attach entities (context fields overriding) and a suggested action. -/
def recognize_intent (user_input : String) (context : Entities) : Intent :=
  let s := lowerData user_input
  let sel : IntentType × ℚ :=
    match topRanked s with
    | some best =>
        if threshold best.1 ≤ best.2.1 then (best.1, best.2.1)
        else (IntentType.CASUAL_CHAT, 1/2)
    | none => (IntentType.CASUAL_CHAT, 1/2)
  let entities := dictUpdate (extract_entities user_input) context
  { intent_type := sel.1
    confidence := sel.2
    entities := entities
    raw_input := user_input
    suggested_action := some (suggestedAction sel.1) }

/-! `ScreenActivityAnalyzer`. -/

/-- One window-title analysis record (the `"context"` field of the dict in the source is
dict is always the empty dict and is carried by `screenEntities` below). -/
structure Analysis where
  activity_type : String
  app_name : String
deriving DecidableEq, Repr

/-- Substring containment, like the Python `in` operator on strings. -/
def strContains (hay needle : List Char) : Bool :=
  (List.range (hay.length + 1)).any (fun i => needle.isPrefixOf (hay.drop i))

/-- Does the lowercased title contain any of the keywords? -/
def containsAnyKw (title : String) (kws : List String) : Bool :=
  kws.any (fun k => strContains (lowerData title) k.data)

/-- Window-title analysis (`ScreenActivityAnalyzer.analyze_window_title`): ordered keyword
containment checks over the lowercased window title. -/
def analyze_window_title (wt : String) : Analysis :=
  if containsAnyKw wt ["chrome", "firefox", "safari", "edge"] then
    ⟨"web_browsing", "browser"⟩
  else if containsAnyKw wt ["code", "visual studio", "pycharm", "intellij"] then
    ⟨"coding", "ide"⟩
  else if containsAnyKw wt ["word", "docs", "notepad"] then
    ⟨"writing", "text_editor"⟩
  else if containsAnyKw wt ["excel", "sheets", "calc"] then
    ⟨"spreadsheet", "spreadsheet_app"⟩
  else ⟨"unknown", ""⟩

/-- The screen-context dict built by `analyze_window_title`, in key
insertion order. -/
def screenEntities (a : Analysis) : Entities :=
  [("activity_type", PyVal.vstr a.activity_type),
   ("app_name", PyVal.vstr a.app_name),
   ("context", PyVal.vdict)]

/-- The last `n` elements of a list, like the Python slice `l[-n:]`. -/
def lastN (n : Nat) (l : List Analysis) : List Analysis :=
  l.drop (l.length - n)

/-- Streak detection (`ScreenActivityAnalyzer.detect_pattern`): nothing with fewer than 3
records; otherwise report a focus observation when the most recent (up to)
5 records share one activity type (`len(set(types)) == 1`). -/
def detect_pattern (h : List Analysis) : Option String :=
  if h.length < 3 then none
  else
    let types := (lastN 5 h).map (fun a => a.activity_type)
    match types with
    | [] => none
    | t :: ts =>
        if ts.all (fun x => x == t) then some ("User is focused on " ++ t)
        else none

/-- History append (`ScreenActivityAnalyzer.add_activity`): append, then keep only the last
50 records. -/
def add_activity (h : List Analysis) (a : Analysis) : List Analysis :=
  let h2 := h ++ [a]
  if 50 < h2.length then h2.drop (h2.length - 50) else h2

/-- A sequence of `add_activity` calls. -/
def addMany (as : List Analysis) (h : List Analysis) : List Analysis :=
  as.foldl add_activity h

/-! `ContextAwareIntentSystem`. -/

/-- Python truthiness of an optional string argument: present and
non-empty. -/
def truthyStr (o : Option String) : Bool :=
  match o with
  | none => false
  | some s => s != ""

/-- The generic screen-only suggested action string. -/
def noticedMsg : String :=
  "I noticed you" ++ sqS ++ "re working on something. Need any help?"

/-- The entry point `ContextAwareIntentSystem.analyze` over explicit history state: derive
and record screen context when a window title is supplied, delegate to the
recognizer when text is supplied, otherwise synthesize the screen-only
(confidence `0.3`) or no-input (confidence `0.0`) unknown result. -/
def analyze (user_input window_title : Option String) (st : List Analysis) :
    Intent × List Analysis :=
  let step :=
    if truthyStr window_title then
      let sc := analyze_window_title (window_title.getD "")
      (screenEntities sc, add_activity st sc)
    else (([] : Entities), st)
  if truthyStr user_input then
    (recognize_intent (user_input.getD "") step.1, step.2)
  else if step.1.isEmpty = false then
    ({ intent_type := IntentType.UNKNOWN
       confidence := 3/10
       entities := step.1
       raw_input := ""
       suggested_action := some noticedMsg }, step.2)
  else
    ({ intent_type := IntentType.UNKNOWN
       confidence := 0
       entities := []
       raw_input := ""
       suggested_action := none }, step.2)

/-! Specification-side definitions, written from the words of the spec, to be
compared with the source-side definitions above. -/

/-- Does the pattern of a rule match anywhere in the input? -/
def ruleMatches (s : List Char) (r : Rule) : Bool :=
  (search r.pat s).isSome

/-- Length of the span the pattern of the rule matched (0 when it did not). -/
def matchSpanLen (s : List Char) (r : Rule) : Nat :=
  match search r.pat s with
  | some (i, j) => j - i
  | none => 0

/-- Spec wording: a matched rule contributes its weight, plus `0.05` when
its matched span exceeds 10 characters; an unmatched rule contributes 0. -/
def specRuleScore (s : List Char) (r : Rule) : ℚ :=
  if ruleMatches s r then
    r.weight + (if 10 < matchSpanLen s r then (1/20 : ℚ) else 0)
  else 0

/-- Spec wording: the match count of a category is the number of its rules
whose pattern matched. -/
def specMatchCount (s : List Char) (rules : List Rule) : Nat :=
  rules.countP (ruleMatches s)

/-- Spec wording for the score of a category: the sum of the per-rule
contributions, plus — when the match count exceeds 1 — a bonus of
`min((match_count − 1) × 0.1, 0.3)`, the total clamped to at most `1.0`. -/
def specCategoryScore (s : List Char) (rules : List Rule) : ℚ :=
  let base := (rules.map (specRuleScore s)).sum
  let mc := specMatchCount s rules
  min (if 1 < mc then base + min (((mc : ℚ) - 1) * (1/10)) (3/10) else base) 1

/-- Lexicographic order on `(score, match_count)` ranking keys: the
"rank by (score, match_count) descending" makes the top element the
`lexLE`-greatest. -/
def lexLE (a b : ℚ × Nat) : Prop :=
  a.1 < b.1 ∨ (a.1 = b.1 ∧ a.2 ≤ b.2)

/-! Helper lemmas about the ranking scan. -/

lemma lexLE_refl (a : ℚ × Nat) : lexLE a a :=
  Or.inr ⟨rfl, le_refl _⟩

lemma lexLE_trans {a b c : ℚ × Nat} (hab : lexLE a b) (hbc : lexLE b c) : lexLE a c := by
  rcases hab with h1 | ⟨h1, h1'⟩ <;> rcases hbc with h2 | ⟨h2, h2'⟩
  · exact Or.inl (lt_trans h1 h2)
  · exact Or.inl (h2 ▸ h1)
  · exact Or.inl (h1 ▸ h2)
  · exact Or.inr ⟨h1.trans h2, le_trans h1' h2'⟩

lemma lexLE_of_keyLT {a b : ℚ × Nat} (h : keyLT a b = true) : lexLE a b := by
  unfold keyLT at h
  split at h
  · exact Or.inl (by assumption)
  · split at h
    · exact Or.inr ⟨by assumption, le_of_lt (by simpa using h)⟩
    · simp at h

lemma lexLE_of_not_keyLT {a b : ℚ × Nat} (h : keyLT a b = false) : lexLE b a := by
  unfold keyLT at h
  split at h
  · simp at h
  · split at h
    · exact Or.inr ⟨by simp_all, by simpa using h⟩
    · rcases lt_trichotomy a.1 b.1 with hl | he | hg
      · simp_all
      · simp_all
      · exact Or.inl hg

lemma pickTop_mem : ∀ (xs : List (IntentType × ℚ × Nat)) (b : IntentType × ℚ × Nat),
    pickTop xs b = b ∨ pickTop xs b ∈ xs := by
  intro xs
  induction xs with
  | nil => intro b; exact Or.inl rfl
  | cons x xs ih =>
    intro b
    simp only [pickTop]
    rcases ih (if keyLT b.2 x.2 then x else b) with h | h
    · rw [h]
      split
      · exact Or.inr (List.mem_cons_self _ _)
      · exact Or.inl rfl
    · exact Or.inr (List.mem_cons_of_mem _ h)

lemma pickTop_ge_init : ∀ (xs : List (IntentType × ℚ × Nat)) (b : IntentType × ℚ × Nat),
    lexLE b.2 (pickTop xs b).2 := by
  intro xs
  induction xs with
  | nil => intro b; exact lexLE_refl _
  | cons x xs ih =>
    intro b
    simp only [pickTop]
    cases h : keyLT b.2 x.2 with
    | true =>
      rw [if_pos rfl]
      exact lexLE_trans (lexLE_of_keyLT h) (ih x)
    | false =>
      rw [if_neg Bool.false_ne_true]
      exact ih b

lemma pickTop_ge_mem : ∀ (xs : List (IntentType × ℚ × Nat)) (b p : IntentType × ℚ × Nat),
    p ∈ xs → lexLE p.2 (pickTop xs b).2 := by
  intro xs
  induction xs with
  | nil => intro b p hp; cases hp
  | cons x xs ih =>
    intro b p hp
    simp only [pickTop]
    rcases List.mem_cons.mp hp with h | hp2
    · subst h
      cases hk : keyLT b.2 p.2 with
      | true =>
        rw [if_pos rfl]
        exact pickTop_ge_init xs p
      | false =>
        rw [if_neg Bool.false_ne_true]
        exact lexLE_trans (lexLE_of_not_keyLT hk) (pickTop_ge_init xs b)
    · exact ih _ p hp2

/-! Helper lemmas about scores and bounds. -/

lemma categoryScore_fst_le_one (s : List Char) (rules : List Rule) :
    (categoryScore s rules).1 ≤ 1 := by
  simp only [categoryScore]
  exact min_le_right _ _

lemma mem_intentScores_le_one {s : List Char} {p : IntentType × ℚ × Nat}
    (hp : p ∈ intentScores s) : p.2.1 ≤ 1 := by
  rcases List.mem_map.mp hp with ⟨q, _, rfl⟩
  exact categoryScore_fst_le_one s q.2

lemma topRanked_mem {s : List Char} {best : IntentType × ℚ × Nat}
    (h : topRanked s = some best) : best ∈ intentScores s := by
  unfold topRanked at h
  cases hs : intentScores s with
  | nil => rw [hs] at h; cases h
  | cons x xs =>
    rw [hs] at h
    have hb : pickTop xs x = best := by injection h
    rcases pickTop_mem xs x with h2 | h2
    · rw [hb] at h2; rw [← h2]; exact List.mem_cons_self _ _
    · rw [hb] at h2; exact List.mem_cons_of_mem _ h2

lemma threshold_ge (it : IntentType) : (3/10 : ℚ) ≤ threshold it := by
  unfold threshold
  split <;> norm_num

lemma topRanked_ge_mem {s : List Char} {best : IntentType × ℚ × Nat}
    (h : topRanked s = some best) : ∀ p ∈ intentScores s, lexLE p.2 best.2 := by
  unfold topRanked at h
  cases hs : intentScores s with
  | nil => rw [hs] at h; cases h
  | cons x xs =>
    rw [hs] at h
    have hb : pickTop xs x = best := by injection h
    intro p hp
    rcases List.mem_cons.mp hp with h2 | h2
    · subst h2; rw [← hb]; exact pickTop_ge_init xs p
    · rw [← hb]; exact pickTop_ge_mem xs x p h2

lemma recognize_bounds (t : String) (ctx : Entities) :
    0 ≤ (recognize_intent t ctx).confidence ∧ (recognize_intent t ctx).confidence ≤ 1 := by
  have hmem : ∀ best, topRanked (lowerData t) = some best → best.2.1 ≤ 1 :=
    fun best h => mem_intentScores_le_one (topRanked_mem h)
  simp only [recognize_intent]
  generalize hg : topRanked (lowerData t) = o
  cases o with
  | none => dsimp only; norm_num
  | some best =>
    have h2 : best.2.1 ≤ 1 := hmem best hg
    have h3 := threshold_ge best.1
    dsimp only
    by_cases hth : threshold best.1 ≤ best.2.1
    · rw [if_pos hth]
      exact ⟨by linarith, h2⟩
    · rw [if_neg hth]
      norm_num

lemma scoreLoop_shift (s : List Char) : ∀ (rules : List Rule) (acc : ℚ × Nat),
    List.foldl (scoreStep s) acc rules =
      (acc.1 + (rules.map (specRuleScore s)).sum, acc.2 + specMatchCount s rules) := by
  intro rules
  induction rules with
  | nil => intro acc; simp [specMatchCount]
  | cons r rs ih =>
    intro acc
    rw [List.foldl_cons, ih]
    cases hs : search r.pat s with
    | none =>
      have hm : ruleMatches s r = false := by simp [ruleMatches, hs]
      simp [scoreStep, hs, specRuleScore, hm, specMatchCount, List.countP_cons]
    | some ij =>
      obtain ⟨i, j⟩ := ij
      have hm : ruleMatches s r = true := by simp [ruleMatches, hs]
      have hsp : matchSpanLen s r = j - i := by simp [matchSpanLen, hs]
      simp only [scoreStep, hs, specRuleScore, hm, hsp, if_true, specMatchCount,
        List.countP_cons, List.map_cons, List.sum_cons, Prod.mk.injEq]
      exact ⟨by ring, by omega⟩

/-! The claims. -/

/-- C1: for every text input, optional window title, optional context map
and history state, the confidence of the returned IntentResult lies in the
closed interval `[0, 1]` — computed scores are clamped at `1.0` and the
fallback confidences `0.5`, `0.3`, `0.0` lie in the interval. -/
theorem confidence_in_unit_interval (t : String) (ctx : Entities)
    (ui wt : Option String) (st : List Analysis) :
    (0 ≤ (recognize_intent t ctx).confidence ∧ (recognize_intent t ctx).confidence ≤ 1) ∧
    (0 ≤ (analyze ui wt st).1.confidence ∧ (analyze ui wt st).1.confidence ≤ 1) := by
  refine ⟨recognize_bounds t ctx, ?_⟩
  have hform : (analyze ui wt st).1.confidence =
      (recognize_intent (ui.getD "")
        (if truthyStr wt then screenEntities (analyze_window_title (wt.getD ""))
         else [])).confidence ∨
      (analyze ui wt st).1.confidence = 3/10 ∨
      (analyze ui wt st).1.confidence = 0 := by
    cases hwt : truthyStr wt <;> cases hui : truthyStr ui
    · right; right; simp [analyze, hwt, hui]
    · left; simp [analyze, hwt, hui]
    · right; left; simp [analyze, hwt, hui, screenEntities]
    · left; simp [analyze, hwt, hui]
  rcases hform with h | h | h <;> rw [h]
  · exact recognize_bounds _ _
  · norm_num
  · norm_num

/-- C2: the score of every category is the sum, over its rules, of the
weight when the rule matched plus `0.05` for each matched rule whose span
exceeds 10 characters, plus — when the match count exceeds 1 — the bonus
`min((match_count − 1) × 0.1, 0.3)`, the total clamped at `1.0`; the match
count is the number of matched rules, each counted once. -/
theorem category_score_formula (input : String) (rules : List Rule) :
    (categoryScore (lowerData input) rules).1 = specCategoryScore (lowerData input) rules ∧
    (categoryScore (lowerData input) rules).2 = specMatchCount (lowerData input) rules := by
  have h := scoreLoop_shift (lowerData input) rules (0, 0)
  simp only [categoryScore, scoreLoop, h, specCategoryScore]
  norm_num

/-- C3: the selected category is determined by the `(score, match_count)`
lexicographically greatest entry of the score table: when its score meets
its threshold (`0.3` for casual chat, `0.4` otherwise) it is selected with
that score as confidence, and otherwise casual chat is selected with the
fixed confidence `0.5`. -/
theorem threshold_selection (input : String) (ctx : Entities)
    (best : IntentType × ℚ × Nat)
    (htop : topRanked (lowerData input) = some best) :
    (∀ p ∈ intentScores (lowerData input), lexLE p.2 best.2) ∧
    (threshold best.1 ≤ best.2.1 →
      (recognize_intent input ctx).intent_type = best.1 ∧
      (recognize_intent input ctx).confidence = best.2.1) ∧
    (best.2.1 < threshold best.1 →
      (recognize_intent input ctx).intent_type = IntentType.CASUAL_CHAT ∧
      (recognize_intent input ctx).confidence = 1/2) := by
  refine ⟨topRanked_ge_mem htop, ?_, ?_⟩
  · intro hth
    simp only [recognize_intent, htop]
    rw [if_pos hth]
    exact ⟨rfl, rfl⟩
  · intro hlt
    simp only [recognize_intent, htop]
    rw [if_neg (not_le.mpr hlt)]
    exact ⟨rfl, rfl⟩

/-- C3 witness: on the input "hello" the top-ranked category is casual
chat with score `0.8 ≥ 0.3`, so it is selected with confidence `0.8`. -/
theorem threshold_selection_witness :
    (recognize_intent "hello" []).intent_type = IntentType.CASUAL_CHAT ∧
    (recognize_intent "hello" []).confidence = 4/5 :=
  (threshold_selection "hello" [] (IntentType.CASUAL_CHAT, 4/5, 1)
      (by with_unfolding_all rfl)).2.1 (by norm_num [threshold])

/-! Helper lemmas about the activity history. -/

lemma add_activity_length_le (h : List Analysis) (a : Analysis) :
    (add_activity h a).length ≤ 50 := by
  simp only [add_activity]
  split
  · rw [List.length_drop]; omega
  · omega

lemma addMany_length_le : ∀ (as h : List Analysis), h.length ≤ 50 →
    (addMany as h).length ≤ 50 := by
  intro as
  induction as with
  | nil => intro h hh; simpa [addMany] using hh
  | cons a as ih =>
    intro h _
    simp only [addMany, List.foldl_cons]
    exact ih (add_activity h a) (add_activity_length_le h a)

lemma add_activity_suffix (l r : List Analysis) (a : Analysis) (hr : r.length ≤ 49) :
    ∃ l2, add_activity (l ++ r) a = l2 ++ (r ++ [a]) := by
  simp only [add_activity]
  split
  · refine ⟨l.drop ((l ++ (r ++ [a])).length - 50), ?_⟩
    have h0 : ((l ++ (r ++ [a])).length - 50) - l.length = 0 := by
      simp only [List.length_append, List.length_cons, List.length_nil]
      omega
    rw [List.append_assoc, List.drop_append_eq_append_drop, h0, List.drop_zero]
  · exact ⟨l, by rw [List.append_assoc]⟩

lemma addMany_suffix : ∀ (rs h : List Analysis), rs.length ≤ 49 →
    ∃ l, addMany rs h = l ++ rs := by
  intro rs
  induction rs using List.reverseRecOn with
  | nil => intro h _; exact ⟨h, by simp [addMany]⟩
  | append_singleton rs r ih =>
    intro h hlen
    have hlen2 : rs.length ≤ 49 := by
      simp only [List.length_append, List.length_cons, List.length_nil] at hlen
      omega
    obtain ⟨l, hl⟩ := ih h hlen2
    have hsplit : addMany (rs ++ [r]) h = add_activity (addMany rs h) r := by
      simp [addMany, List.foldl_append]
    rw [hsplit, hl]
    exact add_activity_suffix l rs r (by omega)

lemma addMany_no_trim : ∀ (rs h : List Analysis), h.length + rs.length ≤ 50 →
    addMany rs h = h ++ rs := by
  intro rs
  induction rs with
  | nil => intro h _; simp [addMany]
  | cons r rs ih =>
    intro h hlen
    simp only [List.length_cons] at hlen
    have hadd : add_activity h r = h ++ [r] := by
      simp only [add_activity]
      rw [if_neg]
      simp only [List.length_append, List.length_cons, List.length_nil]
      omega
    simp only [addMany, List.foldl_cons] at ih ⊢
    rw [hadd, ih (h ++ [r])]
    · simp
    · simp only [List.length_append, List.length_cons, List.length_nil]
      omega

lemma detect_of_lastN_all_eq (h : List Analysis) (t : String) (h3 : 3 ≤ h.length)
    (hne : lastN 5 h ≠ []) (ht : ∀ r ∈ lastN 5 h, r.activity_type = t) :
    detect_pattern h = some ("User is focused on " ++ t) := by
  unfold detect_pattern
  rw [if_neg (by omega)]
  cases hl : lastN 5 h with
  | nil => exact absurd hl hne
  | cons r0 rest =>
    have ht0 : r0.activity_type = t := ht r0 (hl ▸ List.mem_cons_self r0 rest)
    have hall : (rest.map (fun a => a.activity_type)).all
        (fun x => x == r0.activity_type) = true := by
      rw [List.all_eq_true]
      intro x hx
      rcases List.mem_map.mp hx with ⟨r, hr, rfl⟩
      have hmem : r ∈ lastN 5 h := by rw [hl]; exact List.mem_cons_of_mem _ hr
      rw [ht r hmem, ht0]
      simp
    simp only [hl, List.map_cons]
    rw [if_pos hall, ht0]

lemma detect_all_eq (h : List Analysis) (t : String) (h3 : 3 ≤ h.length)
    (h5 : h.length ≤ 5) (ht : ∀ r ∈ h, r.activity_type = t) :
    detect_pattern h = some ("User is focused on " ++ t) := by
  have hlast : lastN 5 h = h := by
    unfold lastN
    have h0 : h.length - 5 = 0 := by omega
    rw [h0, List.drop_zero]
  apply detect_of_lastN_all_eq h t h3
  · rw [hlast]
    exact List.ne_nil_of_length_pos (by omega)
  · rw [hlast]
    exact ht

lemma detect_suffix (l rs : List Analysis) (t : String) (h5 : rs.length = 5)
    (ht : ∀ r ∈ rs, r.activity_type = t) :
    detect_pattern (l ++ rs) = some ("User is focused on " ++ t) := by
  have hlast : lastN 5 (l ++ rs) = rs := by
    unfold lastN
    rw [List.length_append, h5]
    have h0 : l.length + 5 - 5 = l.length := by omega
    rw [h0, List.drop_left]
  apply detect_of_lastN_all_eq
  · rw [List.length_append]; omega
  · rw [hlast]
    exact List.ne_nil_of_length_pos (by omega)
  · rw [hlast]
    exact ht

/-- C10: the pattern detector reports nothing whenever the history holds
fewer than 3 records, and whenever it holds between 3 and 5 records that
all share one activity type it already reports the focus observation: the
trigger is the recent window of at most 5 records with a floor of 3, not a
fixed streak of 5. -/
theorem detect_pattern_streak_window :
    (∀ (h : List Analysis), h.length < 3 → detect_pattern h = none) ∧
    (∀ (h : List Analysis) (t : String), 3 ≤ h.length → h.length ≤ 5 →
      (∀ r ∈ h, r.activity_type = t) →
      detect_pattern h = some ("User is focused on " ++ t)) := by
  constructor
  · intro h hh
    unfold detect_pattern
    rw [if_pos hh]
  · intro h t h3 h5 ht
    exact detect_all_eq h t h3 h5 ht

/-- C10 witness: 2 identical records report nothing; 3 identical records
already report the focus observation. -/
theorem detect_pattern_streak_window_witness :
    detect_pattern (List.replicate 2 (⟨"coding", "ide"⟩ : Analysis)) = none ∧
    detect_pattern (List.replicate 3 (⟨"coding", "ide"⟩ : Analysis)) =
      some ("User is focused on " ++ "coding") :=
  ⟨detect_pattern_streak_window.1 _ (by decide),
   detect_pattern_streak_window.2 _ "coding" (by decide) (by decide) (by decide)⟩

/-- C5 counterexample: appending only 4 identical records to an empty
history already yields the focus observation, contradicting the claim that
4 such records report nothing. -/
theorem four_identical_records_counterexample :
    detect_pattern (addMany (List.replicate 4 (⟨"coding", "ide"⟩ : Analysis)) []) =
      some "User is focused on coding" := by decide

/-- C5 (amended): appending 5 consecutive records sharing one activity
type onto any history yields the focus observation, and appending only 4
such records to an empty history also yields it rather than nothing (the
detector fires as soon as at least 3 records exist and the recent window
of at most 5 records agrees). -/
theorem focus_streak_amended :
    (∀ (h rs : List Analysis) (t : String), rs.length = 5 →
      (∀ r ∈ rs, r.activity_type = t) →
      detect_pattern (addMany rs h) = some ("User is focused on " ++ t)) ∧
    (∀ (rs : List Analysis) (t : String), rs.length = 4 →
      (∀ r ∈ rs, r.activity_type = t) →
      detect_pattern (addMany rs []) = some ("User is focused on " ++ t)) := by
  constructor
  · intro h rs t h5 ht
    obtain ⟨l, hl⟩ := addMany_suffix rs h (by omega)
    rw [hl]
    exact detect_suffix l rs t h5 ht
  · intro rs t h4 ht
    have hplain : addMany rs [] = rs := by
      simpa using addMany_no_trim rs [] (by simp [h4])
    rw [hplain]
    exact detect_all_eq rs t (by omega) (by omega) ht

/-- C5 witness: 5 identical coding records from empty report focus, and so
do 4 identical writing records. -/
theorem focus_streak_amended_witness :
    detect_pattern (addMany (List.replicate 5 (⟨"coding", "ide"⟩ : Analysis)) []) =
      some ("User is focused on " ++ "coding") ∧
    detect_pattern (addMany (List.replicate 4 (⟨"writing", "text_editor"⟩ : Analysis)) []) =
      some ("User is focused on " ++ "writing") :=
  ⟨focus_streak_amended.1 [] _ "coding" (by decide) (by decide),
   focus_streak_amended.2 _ "writing" (by decide) (by decide)⟩

/-- C6: a history built by any sequence of appends stays within 50
records; appending to a full history drops exactly the single oldest
record before appending (FIFO), and appending to a non-full history is a
plain append, so the recency order of remaining records is preserved. -/
theorem history_bounded_fifo :
    (∀ (as : List Analysis), (addMany as []).length ≤ 50) ∧
    (∀ (h : List Analysis) (a : Analysis), h.length = 50 →
      add_activity h a = h.drop 1 ++ [a]) ∧
    (∀ (h : List Analysis) (a : Analysis), h.length < 50 →
      add_activity h a = h ++ [a]) := by
  refine ⟨?_, ?_, ?_⟩
  · intro as
    exact addMany_length_le as [] (by simp)
  · intro h a h50
    simp only [add_activity]
    rw [if_pos]
    · have h1 : (h ++ [a]).length - 50 = 1 := by
        simp only [List.length_append, List.length_cons, List.length_nil]
        omega
      rw [h1, List.drop_append_eq_append_drop]
      have h0 : 1 - h.length = 0 := by omega
      rw [h0, List.drop_zero]
    · simp only [List.length_append, List.length_cons, List.length_nil]
      omega
  · intro h a hlt
    simp only [add_activity]
    rw [if_neg]
    simp only [List.length_append, List.length_cons, List.length_nil]
    omega

/-- C6 witness: 60 appends stay within the bound; appending to a
50-record history evicts the oldest record; appending to a 1-record
history is a plain append. -/
theorem history_bounded_fifo_witness :
    (addMany (List.replicate 60 (⟨"coding", "ide"⟩ : Analysis)) []).length ≤ 50 ∧
    add_activity (List.replicate 50 (⟨"coding", "ide"⟩ : Analysis)) ⟨"web_browsing", "browser"⟩ =
      (List.replicate 50 (⟨"coding", "ide"⟩ : Analysis)).drop 1 ++ [⟨"web_browsing", "browser"⟩] ∧
    add_activity [(⟨"coding", "ide"⟩ : Analysis)] ⟨"web_browsing", "browser"⟩ =
      [(⟨"coding", "ide"⟩ : Analysis)] ++ [⟨"web_browsing", "browser"⟩] :=
  ⟨history_bounded_fifo.1 _,
   history_bounded_fifo.2.1 _ _ (by decide),
   history_bounded_fifo.2.2 _ _ (by decide)⟩

/-- C4 counterexample: calling classify with the empty string (and no
window title) does not reach the casual-chat fallback: the empty string is
falsy in Python, so classify treats it as absent text and returns the
unknown category with confidence 0.0. -/
theorem empty_string_not_casual_counterexample :
    (analyze (some "") none []).1.intent_type = IntentType.UNKNOWN ∧
    (analyze (some "") none []).1.intent_type ≠ IntentType.CASUAL_CHAT ∧
    (analyze (some "") none []).1.confidence = 0 := by
  refine ⟨?_, ?_, ?_⟩
  · with_unfolding_all rfl
  · with_unfolding_all decide
  · with_unfolding_all rfl

/-- C4 (amended): whitespace-only and symbol-only inputs classify to
casual chat with the fallback confidence 0.5 and raise no error; the
empty string is treated by classify as absent text (Python truthiness)
and yields the unknown category with confidence 0.0, while the intent
recognizer itself maps the empty string to casual chat with 0.5. -/
theorem degenerate_input_fallback :
    (analyze (some "   ") none []).1.intent_type = IntentType.CASUAL_CHAT ∧
    (analyze (some "   ") none []).1.confidence = 1/2 ∧
    (analyze (some "!@#$%^&*()") none []).1.intent_type = IntentType.CASUAL_CHAT ∧
    (analyze (some "!@#$%^&*()") none []).1.confidence = 1/2 ∧
    (analyze (some "") none []).1.intent_type = IntentType.UNKNOWN ∧
    (analyze (some "") none []).1.confidence = 0 ∧
    (recognize_intent "" []).intent_type = IntentType.CASUAL_CHAT ∧
    (recognize_intent "" []).confidence = 1/2 := by
  refine ⟨?_, ?_, ?_, ?_, ?_, ?_, ?_, ?_⟩ <;> with_unfolding_all rfl

/-- C7: with a non-empty window title and no text, classify returns the
unknown category with the fixed confidence 0.3, the derived screen context
as entities, empty raw input and the generic noticed-something suggestion;
with neither text nor title it returns unknown with confidence 0.0, empty
entities, empty raw input and no suggested action. -/
theorem screen_only_results (wt : String) (st : List Analysis) (hwt : wt ≠ "") :
    (analyze none (some wt) st).1 =
      { intent_type := IntentType.UNKNOWN
        confidence := 3/10
        entities := screenEntities (analyze_window_title wt)
        raw_input := ""
        suggested_action := some noticedMsg } ∧
    (analyze none none st).1 =
      { intent_type := IntentType.UNKNOWN
        confidence := 0
        entities := []
        raw_input := ""
        suggested_action := none } := by
  have htrue : truthyStr (some wt) = true := by
    simp only [truthyStr]
    simpa using hwt
  constructor
  · simp [analyze, htrue, screenEntities, show truthyStr none = false from rfl]
  · simp [analyze, show truthyStr none = false from rfl]

/-- C7 witness: instantiated at the window title "chrome" and the empty
history. -/
theorem screen_only_results_witness :
    (analyze none (some "chrome") []).1 =
      { intent_type := IntentType.UNKNOWN
        confidence := 3/10
        entities := screenEntities (analyze_window_title "chrome")
        raw_input := ""
        suggested_action := some noticedMsg } ∧
    (analyze none none []).1 =
      { intent_type := IntentType.UNKNOWN
        confidence := 0
        entities := []
        raw_input := ""
        suggested_action := none } :=
  screen_only_results "chrome" [] (by decide)

/-- C8: the literal URL input is classified as open-url with confidence at
least 0.8, and the entities of the result carry the exact URL string under the
key "url". -/
theorem url_classification :
    (analyze (some "https://example.com") none []).1.intent_type = IntentType.OPEN_URL ∧
    (8/10 : ℚ) ≤ (analyze (some "https://example.com") none []).1.confidence ∧
    (analyze (some "https://example.com") none []).1.entities =
      [("url", PyVal.vlist ["https://example.com"])] := by
  refine ⟨?_, ?_, ?_⟩
  · with_unfolding_all rfl
  · with_unfolding_all decide
  · with_unfolding_all rfl

/-- C9: with identical text, no window title and no context, two calls to
classify return identical category and identical confidence regardless of
the activity history state at each call. -/
theorem classification_history_independent (t : String) (st st2 : List Analysis) :
    (analyze (some t) none st).1.intent_type = (analyze (some t) none st2).1.intent_type ∧
    (analyze (some t) none st).1.confidence = (analyze (some t) none st2).1.confidence := by
  have key : ∀ (s : List Analysis),
      (analyze (some t) none s).1 = (analyze (some t) none []).1 := by
    intro s
    cases hui : truthyStr (some t) <;>
      simp [analyze, hui, show truthyStr none = false from rfl]
  rw [key st, key st2]
  exact ⟨rfl, rfl⟩

end MbtiPet
